import Mathlib

/-!
Verification of the client-side authentication session manager of the
DreamN repository (frontend/src/hooks/useKeycloak.jsx), as a shallow
embedding in Lean 4.

JavaScript objects used as string-keyed maps are embedded as association
lists in insertion order: property read is first-match lookup, property
write replaces the first matching entry in place or appends at the end.
JavaScript primitive values appearing in token claims are embedded as
the inductive type JSValue; strict equality is structural equality.
-/

set_option autoImplicit false

namespace DreamN

/-- A JavaScript primitive value as it may occur in a token claim. -/
inductive JSValue where
  | bool (b : Bool)
  | str (s : String)
  | num (n : Int)
  | undef
  | nullV
  deriving DecidableEq, Repr

/-- Property read on a JS object: first entry whose key matches. -/
def jsLookup {α : Type} (m : List (String × α)) (k : String) : Option α :=
  match m with
  | [] => none
  | (k', v) :: rest => if k' = k then some v else jsLookup rest k

/-- Property write on a JS object: replace the first entry with the key in
place, or append a new entry at the end (insertion order preserved). -/
def setKey {α : Type} (m : List (String × α)) (k : String) (v : α) : List (String × α) :=
  match m with
  | [] => [(k, v)]
  | (k', v') :: rest => if k' = k then (k, v) :: rest else (k', v') :: setKey rest k v

/-- Object.keys: the keys of a JS object in insertion order. -/
def objKeys {α : Type} (m : List (String × α)) : List String :=
  m.map Prod.fst

/-- The relevant fields of an authenticated keycloak-js client instance:
the authenticated flag, the token pair, realm roles (realmAccess.roles),
client roles for the configured client id (resourceAccess[clientId].roles),
and the parsed token's role_attributes claim (none when the claim or the
parsed token is missing). -/
structure KC where
  authenticated : Bool
  token : Option String
  refreshToken : Option String
  realmRoles : List String
  clientRoles : List String
  roleAttrs : Option (List (String × JSValue))
  deriving DecidableEq, Repr

/-- getUserRoles: empty for an unauthenticated instance, otherwise realm
roles followed by client roles (useKeycloak.jsx lines 124-131). -/
def getUserRoles (kc : KC) : List String :=
  if kc.authenticated then kc.realmRoles ++ kc.clientRoles else []

/-- hasSuperRole: authenticated and the user roles include the configured
super role (useKeycloak.jsx lines 134-139). -/
def hasSuperRole (superRole : String) (kc : KC) : Bool :=
  if kc.authenticated then (getUserRoles kc).contains superRole else false

/-- hasSuperRole through an optional instance: a null instance is not
authenticated, hence no super role. -/
def hasSuperRoleOpt (superRole : String) (kc : Option KC) : Bool :=
  match kc with
  | none => false
  | some k => hasSuperRole superRole k

/-- The explicit non-privileged default-role list of isCustomRole
(useKeycloak.jsx lines 143-145). -/
def defaultRoles : List String :=
  ["two-shoulder", "offline_access", "uma_authorization"]

/-- isCustomRole (useKeycloak.jsx lines 142-150): a synthetic default-role
name is not custom; the name two-shoulder is custom (checked before the
default-role list); other names in the default-role list are not custom;
everything else is custom. -/
def isCustomRole (roleName : String) : Bool :=
  if roleName.startsWith "default-roles-" then false
  else if roleName = "two-shoulder" then true
  else if defaultRoles.contains roleName then false
  else true

/-- The truthiness test applied to a role_attributes claim value
(useKeycloak.jsx line 195): strictly equal to true, "true", "1" or 1. -/
def truthy (v : JSValue) : Bool :=
  v = JSValue.bool true || v = JSValue.str "true" || v = JSValue.str "1" || v = JSValue.num 1

/-- The super/privileged branch of the permission merge: every module key
present in role_attributes is set to true (useKeycloak.jsx lines 179-181
and 185-187). -/
def superPass (ra : List (String × JSValue)) : List (String × Bool) :=
  (objKeys ra).foldl (fun acc k => setKey acc k true) []

/-- One custom-role pass of the permission merge: for each module key of
role_attributes, set the permission to the truthiness of the claim value
(useKeycloak.jsx lines 193-200). -/
def customPass (ra : List (String × JSValue)) (acc : List (String × Bool)) : List (String × Bool) :=
  (objKeys ra).foldl (fun a k => setKey a k (truthy ((jsLookup ra k).getD JSValue.undef))) acc

/-- The mergedPermissions object computed by loadRoleAttributes
(useKeycloak.jsx lines 157-202): role_attributes defaults to the empty
object; super role or the two-shoulder privileged role set every module
to true; otherwise one customPass runs per custom role held, starting
from the empty object. -/
def mergedPermissions (superRole : String) (kc : KC) : List (String × Bool) :=
  let ra := kc.roleAttrs.getD []
  let userRoles := getUserRoles kc
  let filteredRoles := userRoles.filter isCustomRole
  if hasSuperRole superRole kc then superPass ra
  else if userRoles.contains "two-shoulder" then superPass ra
  else filteredRoles.foldl (fun acc _ => customPass ra acc) []

/-- loadRoleAttributes guard (useKeycloak.jsx line 154): on an
unauthenticated instance nothing is computed and no permissions are
written; otherwise the permissions state is set to mergedPermissions. -/
def loadRoleAttributesPerms (superRole : String) (kc : KC) : Option (List (String × Bool)) :=
  if kc.authenticated then some (mergedPermissions superRole kc) else none

theorem jsLookup_setKey_self {α : Type} (m : List (String × α)) (k : String) (v : α) :
    jsLookup (setKey m k v) k = some v := by
  induction m with
  | nil => simp [setKey, jsLookup]
  | cons p rest ih =>
    obtain ⟨k', v'⟩ := p
    by_cases h : k' = k
    · simp [setKey, jsLookup, h]
    · simp [setKey, jsLookup, h, ih]

theorem jsLookup_setKey_ne {α : Type} (m : List (String × α)) (k k' : String) (v : α)
    (h : k' ≠ k) : jsLookup (setKey m k v) k' = jsLookup m k' := by
  induction m with
  | nil => simp [setKey, jsLookup, Ne.symm h]
  | cons p rest ih =>
    obtain ⟨k'', v''⟩ := p
    by_cases h2 : k'' = k
    · subst h2
      simp [setKey, jsLookup, Ne.symm h]
    · simp only [setKey, if_neg h2, jsLookup]
      rw [ih]

theorem jsLookup_foldl_setKey_not_mem {α : Type} (l : List String) (g : String → α)
    (acc : List (String × α)) (k : String) (h : k ∉ l) :
    jsLookup (l.foldl (fun a x => setKey a x (g x)) acc) k = jsLookup acc k := by
  induction l generalizing acc with
  | nil => simp
  | cons x rest ih =>
    simp only [List.mem_cons, not_or] at h
    simp only [List.foldl_cons]
    rw [ih _ h.2, jsLookup_setKey_ne _ _ _ _ h.1]

theorem jsLookup_foldl_setKey_mem {α : Type} (l : List String) (g : String → α)
    (acc : List (String × α)) (k : String) (h : k ∈ l) :
    jsLookup (l.foldl (fun a x => setKey a x (g x)) acc) k = some (g k) := by
  induction l generalizing acc with
  | nil => cases h
  | cons x rest ih =>
    simp only [List.foldl_cons]
    by_cases hk : k ∈ rest
    · exact ih _ hk
    · have hx : x = k := by
        rcases List.mem_cons.mp h with h1 | h2
        · exact h1.symm
        · exact absurd h2 hk
      rw [jsLookup_foldl_setKey_not_mem _ _ _ _ hk, hx, jsLookup_setKey_self]

theorem jsLookup_eq_of_mem_nodup {α : Type} (m : List (String × α)) (k : String) (v : α)
    (hnd : (objKeys m).Nodup) (hmem : (k, v) ∈ m) : jsLookup m k = some v := by
  induction m with
  | nil => cases hmem
  | cons p rest ih =>
    obtain ⟨k', v'⟩ := p
    simp only [objKeys, List.map_cons, List.nodup_cons] at hnd
    rcases List.mem_cons.mp hmem with h1 | h2
    · obtain ⟨hk, hv⟩ := Prod.mk.injEq .. ▸ h1
      simp [jsLookup, hk.symm, hv]
    · have hk : k' ≠ k := by
        intro he
        subst he
        exact hnd.1 (by simpa [objKeys] using List.mem_map_of_mem Prod.fst h2)
      simp only [jsLookup, hk, if_false]
      exact ih hnd.2 h2

theorem setKey_eq_of_jsLookup {α : Type} (m : List (String × α)) (k : String) (v : α)
    (h : jsLookup m k = some v) : setKey m k v = m := by
  induction m with
  | nil => simp [jsLookup] at h
  | cons p rest ih =>
    obtain ⟨k', v'⟩ := p
    by_cases hk : k' = k
    · subst hk
      have h' : v' = v := by simpa [jsLookup] using h
      simp [setKey, h']
    · simp only [jsLookup, if_neg hk] at h
      simp [setKey, hk, ih h]

theorem foldl_setKey_id {α : Type} (l : List String) (g : String → α)
    (acc : List (String × α)) (h : ∀ k ∈ l, jsLookup acc k = some (g k)) :
    l.foldl (fun a x => setKey a x (g x)) acc = acc := by
  induction l with
  | nil => rfl
  | cons x rest ih =>
    simp only [List.foldl_cons]
    rw [setKey_eq_of_jsLookup _ _ _ (h x (List.mem_cons_self x rest))]
    exact ih (fun k hk => h k (List.mem_cons_of_mem x hk))

theorem customPass_customPass (ra : List (String × JSValue)) (acc : List (String × Bool)) :
    customPass ra (customPass ra acc) = customPass ra acc := by
  unfold customPass
  exact foldl_setKey_id _ _ _ (fun k hk => jsLookup_foldl_setKey_mem _ _ _ _ hk)

theorem foldl_customPass_fix (ra : List (String × JSValue)) (roles : List String)
    (acc : List (String × Bool)) (h : customPass ra acc = acc) :
    roles.foldl (fun a _ => customPass ra a) acc = acc := by
  induction roles with
  | nil => rfl
  | cons r rest ih => simp only [List.foldl_cons, h]; exact ih

theorem foldl_customPass_eq_single (ra : List (String × JSValue)) (roles : List String)
    (hne : roles ≠ []) :
    roles.foldl (fun a _ => customPass ra a) [] = customPass ra [] := by
  cases roles with
  | nil => cases hne rfl
  | cons r rest =>
    simp only [List.foldl_cons]
    exact foldl_customPass_fix ra rest _ (customPass_customPass ra [])

theorem foldl_customPass_lookup (ra : List (String × JSValue)) (roles : List String)
    (k : String) (hne : roles ≠ []) (hk : k ∈ objKeys ra) :
    jsLookup (roles.foldl (fun a _ => customPass ra a) []) k
      = some (truthy ((jsLookup ra k).getD JSValue.undef)) := by
  rw [foldl_customPass_eq_single ra roles hne]
  exact jsLookup_foldl_setKey_mem _ _ _ _ hk

/-- Claim C4: for an authenticated caller whose roles include the configured
super role, the permission merge is the super branch (no per-role processing),
and every module key present in role_attributes maps to true regardless of
the raw claim value. -/
theorem super_role_all_modules_true (superRole : String) (kc : KC) (m : String) (v : JSValue)
    (hauth : kc.authenticated = true)
    (hrole : (getUserRoles kc).contains superRole = true)
    (hmem : (m, v) ∈ kc.roleAttrs.getD []) :
    mergedPermissions superRole kc = superPass (kc.roleAttrs.getD []) ∧
    jsLookup (mergedPermissions superRole kc) m = some true := by
  have hsuper : hasSuperRole superRole kc = true := by
    unfold hasSuperRole
    rw [hauth]
    simpa using hrole
  have hbranch : mergedPermissions superRole kc = superPass (kc.roleAttrs.getD []) := by
    simp [mergedPermissions, hsuper]
  refine ⟨hbranch, ?_⟩
  rw [hbranch]
  exact jsLookup_foldl_setKey_mem _ _ _ _ (List.mem_map_of_mem Prod.fst hmem)

def kcSuperEx : KC :=
  { authenticated := true, token := some "tok", refreshToken := some "rtok",
    realmRoles := ["sadmin"], clientRoles := [],
    roleAttrs := some [("reports", JSValue.bool false), ("admin", JSValue.bool true)] }

theorem super_role_all_modules_true_witness :
    jsLookup (mergedPermissions "sadmin" kcSuperEx) "reports" = some true :=
  (super_role_all_modules_true "sadmin" kcSuperEx "reports" (JSValue.bool false)
    rfl (by decide) (by decide)).2

/-- Claim C5: the role-classification function classifies two-shoulder as
custom even though it appears in the explicit non-privileged default-role
list, and an authenticated caller holding two-shoulder without the super
role gets every module key present in role_attributes set to true. -/
theorem two_shoulder_privileged (superRole : String) (kc : KC) (m : String) (v : JSValue)
    (hauth : kc.authenticated = true)
    (hsuper : hasSuperRole superRole kc = false)
    (hts : (getUserRoles kc).contains "two-shoulder" = true)
    (hmem : (m, v) ∈ kc.roleAttrs.getD []) :
    isCustomRole "two-shoulder" = true ∧ "two-shoulder" ∈ defaultRoles ∧
    jsLookup (mergedPermissions superRole kc) m = some true := by
  refine ⟨by decide, by decide, ?_⟩
  have hts' : "two-shoulder" ∈ getUserRoles kc := by simpa using hts
  have hbranch : mergedPermissions superRole kc = superPass (kc.roleAttrs.getD []) := by
    simp [mergedPermissions, hsuper, hts']
  rw [hbranch]
  exact jsLookup_foldl_setKey_mem _ _ _ _ (List.mem_map_of_mem Prod.fst hmem)

def kcTwoShoulderEx : KC :=
  { authenticated := true, token := some "tok", refreshToken := some "rtok",
    realmRoles := ["two-shoulder"], clientRoles := [],
    roleAttrs := some [("reports", JSValue.bool false)] }

theorem two_shoulder_privileged_witness :
    jsLookup (mergedPermissions "sadmin" kcTwoShoulderEx) "reports" = some true :=
  (two_shoulder_privileged "sadmin" kcTwoShoulderEx "reports" (JSValue.bool false)
    rfl (by decide) (by decide) (by decide)).2.2

/-- Claim C6: for an authenticated caller with at least one custom role and
neither the super role nor two-shoulder, a module key present in
role_attributes (keys unambiguous, as in a JS object) resolves to the
truthiness of its claim value, which is true exactly for the boolean true,
the strings "true" and "1", and the number 1, and explicitly false for
every other value. -/
theorem custom_role_truthy (superRole : String) (kc : KC) (m : String) (v : JSValue)
    (hauth : kc.authenticated = true)
    (hsuper : hasSuperRole superRole kc = false)
    (hts : ("two-shoulder" ∈ getUserRoles kc) = False)
    (hcustom : (getUserRoles kc).filter isCustomRole ≠ [])
    (hnd : (objKeys (kc.roleAttrs.getD [])).Nodup)
    (hmem : (m, v) ∈ kc.roleAttrs.getD []) :
    jsLookup (mergedPermissions superRole kc) m = some (truthy v) ∧
    (truthy v = true ↔
      (v = JSValue.bool true ∨ v = JSValue.str "true" ∨ v = JSValue.str "1" ∨ v = JSValue.num 1)) := by
  constructor
  · have hbranch : mergedPermissions superRole kc
        = ((getUserRoles kc).filter isCustomRole).foldl
            (fun acc _ => customPass (kc.roleAttrs.getD []) acc) [] := by
      simp [mergedPermissions, hsuper, hts]
    rw [hbranch,
      foldl_customPass_lookup _ _ _ hcustom (List.mem_map_of_mem Prod.fst hmem),
      jsLookup_eq_of_mem_nodup _ _ _ hnd hmem]
    rfl
  · simp [truthy, or_assoc]

def kcCustomEx : KC :=
  { authenticated := true, token := some "tok", refreshToken := some "rtok",
    realmRoles := ["reporter"], clientRoles := [],
    roleAttrs := some [("reports", JSValue.str "1"), ("admin", JSValue.num 0)] }

theorem custom_role_truthy_witness :
    jsLookup (mergedPermissions "sadmin" kcCustomEx) "reports" = some true :=
  (custom_role_truthy "sadmin" kcCustomEx "reports" (JSValue.str "1")
    rfl (by decide) (by simp [kcCustomEx, getUserRoles]) (by decide) (by decide) (by decide)).1

/-- Claim C10: for non-super, non-privileged authenticated callers the
resolved permission map depends only on the shared role_attributes claim
once at least one custom role is held (any two such callers with the same
claim get the identical map), and with zero custom roles the map is
empty. -/
theorem custom_merge_role_invariant (superRole : String) (kc1 kc2 : KC)
    (hra : kc1.roleAttrs = kc2.roleAttrs)
    (hauth1 : kc1.authenticated = true) (hauth2 : kc2.authenticated = true)
    (hsuper1 : hasSuperRole superRole kc1 = false)
    (hsuper2 : hasSuperRole superRole kc2 = false)
    (hts1 : ("two-shoulder" ∈ getUserRoles kc1) = False)
    (hts2 : ("two-shoulder" ∈ getUserRoles kc2) = False) :
    ((getUserRoles kc1).filter isCustomRole ≠ [] →
      (getUserRoles kc2).filter isCustomRole ≠ [] →
      mergedPermissions superRole kc1 = mergedPermissions superRole kc2) ∧
    ((getUserRoles kc1).filter isCustomRole = [] →
      mergedPermissions superRole kc1 = []) := by
  have hb1 : mergedPermissions superRole kc1
      = ((getUserRoles kc1).filter isCustomRole).foldl
          (fun acc _ => customPass (kc1.roleAttrs.getD []) acc) [] := by
    simp [mergedPermissions, hsuper1, hts1]
  have hb2 : mergedPermissions superRole kc2
      = ((getUserRoles kc2).filter isCustomRole).foldl
          (fun acc _ => customPass (kc2.roleAttrs.getD []) acc) [] := by
    simp [mergedPermissions, hsuper2, hts2]
  constructor
  · intro hne1 hne2
    rw [hb1, hb2, foldl_customPass_eq_single _ _ hne1, foldl_customPass_eq_single _ _ hne2, hra]
  · intro hnil
    rw [hb1, hnil]
    rfl

def kcCustomEx2 : KC :=
  { authenticated := true, token := some "tok2", refreshToken := some "rtok2",
    realmRoles := ["auditor", "reporter"], clientRoles := ["viewer"],
    roleAttrs := some [("reports", JSValue.str "1"), ("admin", JSValue.num 0)] }

theorem custom_merge_role_invariant_witness :
    mergedPermissions "sadmin" kcCustomEx = mergedPermissions "sadmin" kcCustomEx2 :=
  (custom_merge_role_invariant "sadmin" kcCustomEx kcCustomEx2
    rfl rfl rfl (by decide) (by decide)
    (by simp [kcCustomEx, getUserRoles]) (by simp [kcCustomEx2, getUserRoles])).1
    (by decide) (by decide)

/-- A state-change event broadcast through notifyStateChange. The payloads
carried by the code are the fields the local reducer reads; an instance is
identified by a numeric handle. An unknown kind models a kind outside the
five broadcast by the code. -/
inductive Event where
  | reset
  | loading
  | initialized (kc : Nat) (authenticated : Bool)
  | error (message : String)
  | tokenUpdated (token : Option String) (refreshToken : Option String)
  | unknown (kind : String)
  deriving DecidableEq, Repr

/-- The per-facade local React state of useKeycloak (useKeycloak.jsx lines
60-68): the client handle, the authenticated/loading flags, the error
string, the opaque user info, the token pair, the role-attributes map and
the permission map. -/
structure LocalState where
  keycloak : Option Nat
  authenticated : Bool
  loading : Bool
  error : Option String
  userInfo : Option String
  token : Option String
  refreshToken : Option String
  roleAttributes : List (String × List (String × JSValue))
  permissions : List (String × Bool)
  deriving DecidableEq, Repr

/-- The local state produced by the RESET arm of the reducer: everything
cleared (useKeycloak.jsx lines 79-89). -/
def resetLocalState : LocalState :=
  { keycloak := none, authenticated := false, loading := false, error := none,
    userInfo := none, token := none, refreshToken := none,
    roleAttributes := [], permissions := [] }

/-- handleStateChange (useKeycloak.jsx lines 75-105), the local reducer a
mounted facade registers as its subscriber callback. The switch has arms
for RESET, INITIALIZED, ERROR and TOKEN_UPDATED only; every other event
kind falls through with no state change. -/
def handleStateChange (e : Event) (s : LocalState) : LocalState :=
  match e with
  | Event.reset => resetLocalState
  | Event.initialized kc auth =>
      { s with keycloak := some kc, authenticated := auth, loading := false, error := none }
  | Event.error msg => { s with error := some msg, loading := false }
  | Event.tokenUpdated t rt => { s with token := t, refreshToken := rt }
  | Event.loading => s
  | Event.unknown _ => s

/-- A concrete mid-session local state used to exhibit reducer behaviour. -/
def localEx : LocalState :=
  { keycloak := some 0, authenticated := true, loading := false, error := none,
    userInfo := some "alice", token := some "tok", refreshToken := some "rtok",
    roleAttributes := [("realm:reporter", [("reports", JSValue.bool true)])],
    permissions := [("reports", true)] }

/-- Claim C2 counterexample: delivering a LOADING event to the local reducer
leaves the state unchanged — in particular the loading flag stays false —
because the reducer switch has no LOADING arm, contradicting the claim that
the reducer applies all five event kinds with LOADING setting the loading
flag true. -/
theorem handleStateChange_loading_ignored :
    handleStateChange Event.loading localEx = localEx ∧
    (handleStateChange Event.loading localEx).loading = false := by
  constructor
  · rfl
  · rfl

/-- Claim C2 (amended): the local reducer applies the four event kinds
RESET, INITIALIZED, ERROR and TOKEN_UPDATED with their specified effects
(RESET clears every field: authenticated=false, token=null and an empty
permission map with no stale values remaining), while LOADING and events
of unknown kind leave the local state unchanged. -/
theorem handleStateChange_spec (s : LocalState) (kc : Nat) (auth : Bool)
    (msg : String) (t rt : Option String) (kind : String) :
    (handleStateChange Event.reset s = resetLocalState ∧
      (handleStateChange Event.reset s).authenticated = false ∧
      (handleStateChange Event.reset s).token = none ∧
      (handleStateChange Event.reset s).permissions = []) ∧
    handleStateChange (Event.initialized kc auth) s
      = { s with keycloak := some kc, authenticated := auth, loading := false, error := none } ∧
    handleStateChange (Event.error msg) s = { s with error := some msg, loading := false } ∧
    handleStateChange (Event.tokenUpdated t rt) s = { s with token := t, refreshToken := rt } ∧
    handleStateChange Event.loading s = s ∧
    handleStateChange (Event.unknown kind) s = s := by
  exact ⟨⟨rfl, rfl, rfl, rfl⟩, rfl, rfl, rfl, rfl, rfl⟩

/-- A registered state subscriber: a numeric identity, its current local
state, and its callback, which either returns an updated state or throws
with a message. A well-behaved facade uses handleStateChange and never
throws; the type also admits faulty subscribers. -/
structure Subscriber where
  sid : Nat
  state : LocalState
  callback : Event → LocalState → Except String LocalState

/-- notifyStateChange (useKeycloak.jsx lines 30-38): iterate over the
current subscribers in order; invoke each callback on the event inside a
try/catch, so a throwing callback is logged (second component collects the
delivery record, third the logged errors) and iteration continues. The
subscriber set itself is never modified. -/
def notifyStateChange (e : Event) :
    List Subscriber → List Subscriber × List (Nat × Event) × List String
  | [] => ([], [], [])
  | sub :: rest =>
    let step : Subscriber × Option String :=
      match sub.callback e sub.state with
      | Except.ok st => ({ sub with state := st }, none)
      | Except.error msg => (sub, some msg)
    let tail := notifyStateChange e rest
    (step.1 :: tail.1, (sub.sid, e) :: tail.2.1,
      match step.2 with
      | some msg => msg :: tail.2.2
      | none => tail.2.2)

/-- Claim C7: notifyStateChange delivers the event to every current
subscriber in order with the identical payload, even when some callbacks
throw: the delivery record lists every subscriber exactly once paired with
the event, and the resulting subscriber list keeps the same identities and
callbacks in the same order (a throwing subscriber is never removed, and
its exception never reaches the notifier, since notifyStateChange is a
total function). -/
theorem notifyStateChange_delivers_all (e : Event) (subs : List Subscriber) :
    (notifyStateChange e subs).2.1 = subs.map (fun s => (s.sid, e)) ∧
    (notifyStateChange e subs).1.map Subscriber.sid = subs.map Subscriber.sid ∧
    (notifyStateChange e subs).1.map Subscriber.callback
      = subs.map Subscriber.callback ∧
    (notifyStateChange e subs).1.length = subs.length := by
  induction subs with
  | nil => exact ⟨rfl, rfl, rfl, rfl⟩
  | cons sub rest ih =>
    obtain ⟨h1, h2, h3, h4⟩ := ih
    refine ⟨?_, ?_, ?_, ?_⟩
    · simpa [notifyStateChange] using h1
    · cases hc : sub.callback e sub.state with
      | ok st => simpa [notifyStateChange, hc] using h2
      | error msg => simpa [notifyStateChange, hc] using h2
    · cases hc : sub.callback e sub.state with
      | ok st => simpa [notifyStateChange, hc] using h3
      | error msg => simpa [notifyStateChange, hc] using h3
    · simpa [notifyStateChange] using h4

/-- Outcome of the awaited provider refresh call updateToken(30): it
resolved reporting a refresh with a new token pair, it resolved reporting
the token was still valid, or it rejected. -/
inductive RefreshOutcome where
  | refreshed (token : String) (refreshToken : String)
  | notRefreshed
  | failed
  deriving DecidableEq, Repr

/-- State visible to one tick of the token-refresh scheduler: the client
instance's token pair, the owning facade's mirrored token pair and error
string, whether the single-shot timer is armed, and the list of events
broadcast through notifyStateChange so far. -/
structure RefreshState where
  kcToken : Option String
  kcRefreshToken : Option String
  localToken : Option String
  localRefreshToken : Option String
  localError : Option String
  timerArmed : Bool
  broadcasts : List Event
  deriving DecidableEq, Repr

/-- One execution of the scheduler's updateToken callback (useKeycloak.jsx
lines 274-316), entered with the timer fired (not armed). On a refresh the
instance and local token pairs are updated, TOKEN_UPDATED is broadcast and
the timer is re-armed; on a still-valid token only the timer is re-armed;
on a rejection the catch arm sets the local error to the re-login message
and returns - no broadcast, no re-arm. -/
def updateTokenStep (s : RefreshState) (outcome : RefreshOutcome) : RefreshState :=
  match outcome with
  | RefreshOutcome.refreshed t rt =>
      { s with
          kcToken := some t, kcRefreshToken := some rt,
          localToken := some t, localRefreshToken := some rt,
          broadcasts := s.broadcasts ++ [Event.tokenUpdated (some t) (some rt)],
          timerArmed := true }
  | RefreshOutcome.notRefreshed => { s with timerArmed := true }
  | RefreshOutcome.failed =>
      { s with
          localError := some "Authentication session expired. Please login again.",
          timerArmed := false }

/-- getToken (useKeycloak.jsx lines 561-563): the client instance's token,
with a JS-falsy token (missing or empty string) coerced to null. -/
def getToken (kcToken : Option String) : Option String :=
  match kcToken with
  | none => none
  | some t => if t = "" then none else some t

/-- A concrete scheduler state right before a failing refresh: a live
session holding a token, timer fired, nothing broadcast during the tick. -/
def refreshEx : RefreshState :=
  { kcToken := some "tok", kcRefreshToken := some "rtok",
    localToken := some "tok", localRefreshToken := some "rtok",
    localError := none, timerArmed := false, broadcasts := [] }

/-- Claim C3 counterexample: when the scheduled refresh rejects, the step
broadcasts nothing at all - the list of events sent through
notifyStateChange during the tick stays empty - contradicting the claim
that an ERROR event is broadcast to every subscriber; the failure is
recorded only in the owning facade's local error string. -/
theorem refresh_failure_no_broadcast :
    (updateTokenStep refreshEx RefreshOutcome.failed).broadcasts = [] ∧
    (updateTokenStep refreshEx RefreshOutcome.failed).localError
      = some "Authentication session expired. Please login again." := by
  exact ⟨rfl, rfl⟩

/-- Claim C3 (amended): when a scheduled token refresh rejects, the
scheduler records a re-authentication-required message in the owning
facade's local error only - it broadcasts no event to the subscribers -
does not re-arm its timer or retry on its own, and leaves the client
instance's token untouched, so a subsequent getToken() still returns the
last known (possibly invalid) token rather than null. -/
theorem refresh_failure_spec (s : RefreshState) :
    (updateTokenStep s RefreshOutcome.failed).localError
      = some "Authentication session expired. Please login again." ∧
    (updateTokenStep s RefreshOutcome.failed).broadcasts = s.broadcasts ∧
    (updateTokenStep s RefreshOutcome.failed).timerArmed = false ∧
    (updateTokenStep s RefreshOutcome.failed).kcToken = s.kcToken ∧
    getToken (updateTokenStep s RefreshOutcome.failed).kcToken = getToken s.kcToken := by
  exact ⟨rfl, rfl, rfl, rfl, rfl⟩

/-- The module-level initialization phase (useKeycloak.jsx line 10). -/
inductive Phase where
  | idle
  | initializing
  | initialized
  | failed
  deriving DecidableEq, Repr

/-- The module-level global state of the hook (useKeycloak.jsx lines 8-11):
the singleton client handle, the shared in-flight init promise handle, the
phase and the last global error; initCount is a ghost counter of provider
init invocations and nextPid the next fresh promise handle. -/
structure GState where
  singleton : Option Nat
  promise : Option Nat
  phase : Phase
  gerror : Option String
  initCount : Nat
  nextPid : Nat
  deriving DecidableEq, Repr

/-- The global state at process start (useKeycloak.jsx lines 8-11). -/
def initialGState : GState :=
  { singleton := none, promise := none, phase := Phase.idle, gerror := none,
    initCount := 0, nextPid := 0 }

/-- resetGlobalState on the global record (useKeycloak.jsx lines 41-54):
singleton, promise and error cleared, phase back to idle (the ghost
counters are untouched). -/
def resetGState (s : GState) : GState :=
  { s with singleton := none, promise := none, phase := Phase.idle, gerror := none }

/-- What one initKeycloak caller obtains from the synchronous region of the
call: the shared in-flight promise it will await, or the already
initialized singleton returned directly. -/
inductive AttachResult where
  | pending (pid : Option Nat)
  | ready (kid : Option Nat)
  deriving DecidableEq, Repr

/-- The value a caller eventually resolves with under a resolution
assignment res of promise handles to authenticated flags: a caller awaiting
promise p resolves with res p; a caller handed the singleton observes its
recorded flag sg. -/
def resolvesWith (res : Nat → Bool) (sg : Nat → Bool) : AttachResult → Option Bool
  | AttachResult.pending (some p) => some (res p)
  | AttachResult.pending none => none
  | AttachResult.ready (some k) => some (sg k)
  | AttachResult.ready none => none

/-- The synchronous region of one initKeycloak call (useKeycloak.jsx lines
322-404), up to the await of the shared promise: an initializing phase
returns the in-flight promise; an initialized phase with a live singleton
returns it; a failed phase is reset first; otherwise the phase is set to
initializing, the error cleared, and the shared promise is created only
if absent - creation is the single point where the provider client is
constructed and its init invoked (initCount increments). -/
def initKeycloakAttach (s : GState) : GState × AttachResult :=
  if s.phase = Phase.initializing then (s, AttachResult.pending s.promise)
  else if s.phase = Phase.initialized ∧ s.singleton.isSome then
    (s, AttachResult.ready s.singleton)
  else
    let s1 := if s.phase = Phase.failed then resetGState s else s
    let s2 := { s1 with phase := Phase.initializing, gerror := none }
    match s2.promise with
    | some p => (s2, AttachResult.pending (some p))
    | none =>
        ({ s2 with
            promise := some s2.nextPid,
            initCount := s2.initCount + 1,
            nextPid := s2.nextPid + 1 },
          AttachResult.pending (some s2.nextPid))

/-- Iterate n initKeycloak callers, none of whose awaited promise has yet
settled: the global state threads through, and the per-caller results are
collected in order. -/
def attachIter : Nat → GState → GState × List AttachResult
  | 0, s => (s, [])
  | n + 1, s =>
    let step := initKeycloakAttach s
    let rest := attachIter n step.1
    (rest.1, step.2 :: rest.2)

theorem initKeycloakAttach_initializing (s : GState) (h : s.phase = Phase.initializing) :
    initKeycloakAttach s = (s, AttachResult.pending s.promise) := by
  simp [initKeycloakAttach, h]

theorem attachIter_initializing (n : Nat) (s : GState) (h : s.phase = Phase.initializing) :
    attachIter n s = (s, List.replicate n (AttachResult.pending s.promise)) := by
  induction n with
  | zero => rfl
  | succ m ih =>
    simp [attachIter, initKeycloakAttach_initializing s h, ih, List.replicate_succ]

/-- Claim C1: starting from the idle process-start state, N initKeycloak
calls made while the phase is idle or initializing invoke the provider
init exactly once (the first caller creates the shared promise; every
later caller is handed the same in-flight promise), and under any
resolution of that promise all N callers resolve with the same
authenticated value. -/
theorem initKeycloak_at_most_once (n : Nat) (hn : 1 ≤ n) :
    (attachIter n initialGState).1.initCount = 1 ∧
    (∀ r ∈ (attachIter n initialGState).2, r = AttachResult.pending (some 0)) ∧
    (∀ res sg : Nat → Bool, ∀ r1 ∈ (attachIter n initialGState).2,
      ∀ r2 ∈ (attachIter n initialGState).2,
      resolvesWith res sg r1 = resolvesWith res sg r2) := by
  obtain ⟨m, rfl⟩ : ∃ m, n = m + 1 := ⟨n - 1, (Nat.succ_pred_eq_of_pos hn).symm⟩
  have hstep : initKeycloakAttach initialGState
      = ({ singleton := none, promise := some 0, phase := Phase.initializing,
           gerror := none, initCount := 1, nextPid := 1 },
         AttachResult.pending (some 0)) := by
    decide
  have hiter : attachIter (m + 1) initialGState
      = ({ singleton := none, promise := some 0, phase := Phase.initializing,
           gerror := none, initCount := 1, nextPid := 1 },
         AttachResult.pending (some 0)
           :: List.replicate m (AttachResult.pending (some 0))) := by
    have h2 : attachIter m
        { singleton := none, promise := some 0, phase := Phase.initializing,
          gerror := none, initCount := 1, nextPid := 1 }
        = ({ singleton := none, promise := some 0, phase := Phase.initializing,
             gerror := none, initCount := 1, nextPid := 1 },
           List.replicate m (AttachResult.pending (some 0))) :=
      attachIter_initializing m _ rfl
    show (let step := initKeycloakAttach initialGState
          let rest := attachIter m step.1
          (rest.1, step.2 :: rest.2)) = _
    rw [hstep]
    simp [h2]
  refine ⟨?_, ?_, ?_⟩
  · rw [hiter]
  · intro r hr
    rw [hiter] at hr
    rcases List.mem_cons.mp hr with h1 | h2
    · exact h1
    · exact List.eq_of_mem_replicate h2
  · intro res sg r1 hr1 r2 hr2
    have e1 : r1 = AttachResult.pending (some 0) := by
      rw [hiter] at hr1
      rcases List.mem_cons.mp hr1 with h1 | h2
      · exact h1
      · exact List.eq_of_mem_replicate h2
    have e2 : r2 = AttachResult.pending (some 0) := by
      rw [hiter] at hr2
      rcases List.mem_cons.mp hr2 with h1 | h2
      · exact h1
      · exact List.eq_of_mem_replicate h2
    rw [e1, e2]

theorem initKeycloak_at_most_once_witness :
    (attachIter 3 initialGState).1.initCount = 1 :=
  (initKeycloak_at_most_once 3 (by decide)).1

/-- The full state one facade can reach during logout: the shared global
record, the facade's local React state, the facade's refresh timer, and
the log of events broadcast so far. -/
structure AppState where
  singleton : Option Nat
  initPromise : Option Nat
  phase : Phase
  gerror : Option String
  facade : LocalState
  timerArmed : Bool
  broadcasts : List Event
  deriving DecidableEq, Repr

/-- resetGlobalState as seen by a mounted facade (useKeycloak.jsx lines
41-54): singleton, promise, phase and error cleared, a RESET event
broadcast, and - because the facade is subscribed - its own reducer applies
the RESET synchronously. -/
def resetGlobalStateApp (s : AppState) : AppState :=
  { s with
      singleton := none, initPromise := none, phase := Phase.idle, gerror := none,
      facade := handleStateChange Event.reset s.facade,
      broadcasts := s.broadcasts ++ [Event.reset] }

/-- logout (useKeycloak.jsx lines 448-492) run to completion by a mounted
facade. A null client returns immediately (second component none).
Otherwise: cancel the refresh timer, clear the local state (loading set
true), reset the global state, then await the provider logout call -
remoteErr none models success, some msg a rejection, whose catch arm sets
the local error, clears loading and resets the global state again. The
second component is the state snapshot taken after the local side effects
but before the remote call is awaited. -/
def logoutStep (s : AppState) (remoteErr : Option String) : AppState × Option AppState :=
  match s.facade.keycloak with
  | none => (s, none)
  | some _ =>
    let s1 := { s with timerArmed := false }
    let s2 := { s1 with
        facade := { s1.facade with
          authenticated := false, userInfo := none, token := none,
          refreshToken := none, roleAttributes := [], permissions := [],
          loading := true } }
    let s3 := resetGlobalStateApp s2
    match remoteErr with
    | none => (s3, some s3)
    | some msg =>
      let s4 := { s3 with
          facade := { s3.facade with
            error := some ("Logout failed: " ++ msg), loading := false } }
      let s5 := resetGlobalStateApp s4
      (s5, some s3)

/-- The reset condition claim C8 requires: shared singleton state (client
instance, init promise, phase, error) and the caller's local session state
(authenticated, token, refreshToken, userInfo, permissions) cleared, and
the refresh timer cancelled. -/
def isCleared (s : AppState) : Bool :=
  s.singleton = none && s.initPromise = none && s.phase = Phase.idle &&
  s.gerror = none && s.facade.authenticated = false && s.facade.token = none &&
  s.facade.refreshToken = none && s.facade.userInfo = none &&
  s.facade.permissions = [] && s.timerArmed = false

/-- Claim C8: for a logout call on a session with a live client, the shared
global state and the caller's local state are reset and the refresh timer
cancelled, whether the provider's remote logout call succeeds or throws;
and the pre-remote snapshot already satisfies the reset condition, so the
local side effects fire before the remote call is awaited. -/
theorem logout_always_resets (s : AppState) (remoteErr : Option String)
    (h : s.facade.keycloak.isSome = true) :
    ((logoutStep s remoteErr).2).isSome = true ∧
    isCleared (((logoutStep s remoteErr).2).getD s) = true ∧
    isCleared (logoutStep s remoteErr).1 = true := by
  obtain ⟨k, hk⟩ := Option.isSome_iff_exists.mp h
  cases remoteErr with
  | none =>
    refine ⟨?_, ?_, ?_⟩ <;>
      simp [logoutStep, hk, resetGlobalStateApp, isCleared, handleStateChange,
        resetLocalState]
  | some msg =>
    refine ⟨?_, ?_, ?_⟩ <;>
      simp [logoutStep, hk, resetGlobalStateApp, isCleared, handleStateChange,
        resetLocalState]

def appEx : AppState :=
  { singleton := some 0, initPromise := some 0, phase := Phase.initialized,
    gerror := none, facade := localEx, timerArmed := true, broadcasts := [] }

theorem logout_always_resets_witness :
    isCleared (logoutStep appEx (some "network down")).1 = true :=
  (logout_always_resets appEx (some "network down") (by decide)).2.2

/-- hasModulePermission (useKeycloak.jsx lines 432-445): false when the
facade is unauthenticated or the module name is empty (JS-falsy); true
unconditionally when hasSuperRole() holds on the current client instance;
otherwise an exact lookup requiring the permission-map entry to be the
boolean true. -/
def hasModulePermission (superRole : String) (authenticated : Bool) (kc : Option KC)
    (permissions : List (String × Bool)) (moduleName : String) : Bool :=
  if !authenticated || moduleName = "" then false
  else if hasSuperRoleOpt superRole kc then true
  else jsLookup permissions moduleName = some true

/-- Claim C9: hasModulePermission returns false when the caller is
unauthenticated or the module name is empty; otherwise it returns true
unconditionally for a super-role holder, and for everyone else it returns
true exactly when the permission-map entry for the module is the boolean
true (absent or non-true entries yield false). -/
theorem hasModulePermission_cases (superRole : String) (authenticated : Bool)
    (kc : Option KC) (permissions : List (String × Bool)) (moduleName : String) :
    ((authenticated = false ∨ moduleName = "") →
      hasModulePermission superRole authenticated kc permissions moduleName = false) ∧
    (authenticated = true → moduleName ≠ "" → hasSuperRoleOpt superRole kc = true →
      hasModulePermission superRole authenticated kc permissions moduleName = true) ∧
    (authenticated = true → moduleName ≠ "" → hasSuperRoleOpt superRole kc = false →
      (hasModulePermission superRole authenticated kc permissions moduleName = true ↔
        jsLookup permissions moduleName = some true)) := by
  refine ⟨?_, ?_, ?_⟩
  · rintro (ha | hm)
    · simp [hasModulePermission, ha]
    · simp [hasModulePermission, hm]
  · intro ha hm hs
    simp [hasModulePermission, ha, hm, hs]
  · intro ha hm hs
    simp [hasModulePermission, ha, hm, hs]

theorem hasModulePermission_cases_witness :
    hasModulePermission "sadmin" true (some kcSuperEx) [] "reports" = true :=
  (hasModulePermission_cases "sadmin" true (some kcSuperEx) [] "reports").2.1
    rfl (by decide) (by decide)
